import Mathlib

/-!
Verification of the Tarmac trace-record assembler
(`src/gem5/src/arch/arm/tracers/tarmac_record.hh`).

The embedding follows the source header.  The bodies of `mergeCCEntry`,
`genRegister` and of the no-op hooks `updateVec` / `updatePred` are given
in full in the header and are translated from it.  The bodies of the
`TraceRegEntry` constructor, of the `update` dispatch, of `dump`,
`flushQueues` and `addInstEntry` live in `tarmac_record.cc`, which is not
part of this repository snapshot; those are modelled from the
specification and each such definition says so in its doc comment.
-/

/-- Register classes of the traced entries, as used by the header
(`RegClass` from `cpu/reg_class.hh`): Integer, Float, CondCode, Misc,
Vector and Predicate. -/
inductive RegClass where
  | IntRegClass
  | FloatRegClass
  | CCRegClass
  | MiscRegClass
  | VecRegClass
  | VecPredRegClass
deriving DecidableEq, Repr

/-- Index of the CPSR status register inside the Misc register class
(`ArmISA::MISCREG_CPSR`, the first entry of the misc-register enum). -/
def MISCREG_CPSR : Nat := 0

/-- A register identifier: class tag plus index within the class
(`RegId` from `cpu/reg_class.hh`). -/
structure RegId where
  regClass : RegClass
  index : Nat
deriving DecidableEq, Repr

/-- The per-instruction execution context handed to the tracer
(`TarmacContext`): readable register files plus instruction metadata. -/
structure TarmacContext where
  miscRegValue : Nat → Nat
  ccRegValue : Nat → Nat
  floatRegValue : Nat → Nat
  intRegValue : Nat → Nat
  pc : Nat
  secureMode : Bool
  compactMode : Bool

/-- Register entry (`TarmacTracerRecord::TraceRegEntry`): validity flag,
register class, architectural index, display name and resolved value. -/
structure TraceRegEntry where
  regValid : Bool
  regClass : RegClass
  regRel : Nat
  regName : String
  value : Nat
deriving DecidableEq, Repr

/-- Modelled from the spec: the `TraceRegEntry` constructor body is in
`tarmac_record.cc`, which is not under `src/`.  Spec sections 3 and 4.1:
the validity flag is initially false, the class tag and index are copied
verbatim from the destination register descriptor, and the value is left
unset. -/
def TraceRegEntry.init (_tarmCtx : TarmacContext) (reg : RegId) : TraceRegEntry :=
  { regValid := false
    regClass := reg.regClass
    regRel := reg.index
    regName := ""
    value := 0 }

/-- Modelled from the spec (section 4.2): class Misc reads the named
control or status register from the execution context; always resolvable,
so validity becomes true.  Body in `tarmac_record.cc`. -/
def TraceRegEntry.updateMisc (e : TraceRegEntry) (tarmCtx : TarmacContext)
    (regRelIdx : Nat) : TraceRegEntry :=
  { e with regValid := true, value := tarmCtx.miscRegValue regRelIdx }

/-- Modelled from the spec (section 4.2): class CondCode reads the flag
bits the instruction affects; validity becomes true.  Body in
`tarmac_record.cc`. -/
def TraceRegEntry.updateCC (e : TraceRegEntry) (tarmCtx : TarmacContext)
    (regRelIdx : Nat) : TraceRegEntry :=
  { e with regValid := true, value := tarmCtx.ccRegValue regRelIdx }

/-- Modelled from the spec (section 4.2): class Float reads the scalar
register file at the given index; validity becomes true.  Body in
`tarmac_record.cc`. -/
def TraceRegEntry.updateFloat (e : TraceRegEntry) (tarmCtx : TarmacContext)
    (regRelIdx : Nat) : TraceRegEntry :=
  { e with regValid := true, value := tarmCtx.floatRegValue regRelIdx }

/-- Modelled from the spec (section 4.2): class Integer reads the scalar
register file at the given index; validity becomes true.  Body in
`tarmac_record.cc`. -/
def TraceRegEntry.updateInt (e : TraceRegEntry) (tarmCtx : TarmacContext)
    (regRelIdx : Nat) : TraceRegEntry :=
  { e with regValid := true, value := tarmCtx.intRegValue regRelIdx }

/-- `updateVec` is defined with an empty body directly in the header
(line 156): a no-op. -/
def TraceRegEntry.updateVec (e : TraceRegEntry) (_tarmCtx : TarmacContext)
    (_regRelIdx : Nat) : TraceRegEntry :=
  e

/-- `updatePred` is defined with an empty body directly in the header
(line 159): a no-op. -/
def TraceRegEntry.updatePred (e : TraceRegEntry) (_tarmCtx : TarmacContext)
    (_regRelIdx : Nat) : TraceRegEntry :=
  e

/-- The `update` dispatch.  Its body is in `tarmac_record.cc`; modelled
from the spec (section 4.2): resolution dispatches on the class tag to the
per-class update hook, passing the architectural index. -/
def TraceRegEntry.update (e : TraceRegEntry) (tarmCtx : TarmacContext) :
    TraceRegEntry :=
  match e.regClass with
  | RegClass.MiscRegClass => e.updateMisc tarmCtx e.regRel
  | RegClass.CCRegClass => e.updateCC tarmCtx e.regRel
  | RegClass.FloatRegClass => e.updateFloat tarmCtx e.regRel
  | RegClass.IntRegClass => e.updateInt tarmCtx e.regRel
  | RegClass.VecRegClass => e.updateVec tarmCtx e.regRel
  | RegClass.VecPredRegClass => e.updatePred tarmCtx e.regRel

/-- `TarmacTracerRecord::genRegister` (header lines 215-223): construct a
register entry from the descriptor, then run its update step. -/
def genRegister (tarmCtx : TarmacContext) (reg : RegId) : TraceRegEntry :=
  (TraceRegEntry.init tarmCtx reg).update tarmCtx

/-- Predicate of the `remove_if` lambda in `mergeCCEntry` (header line
232): the entry's register class is CondCode. -/
def isCCReg (reg : TraceRegEntry) : Bool :=
  reg.regClass == RegClass.CCRegClass

/-- The `is_cpsr` lambda in `mergeCCEntry` (header lines 239-243): a
Misc-class entry whose index is `MISCREG_CPSR`. -/
def is_cpsr (reg : TraceRegEntry) : Bool :=
  (reg.regClass == RegClass.MiscRegClass) && (reg.regRel == MISCREG_CPSR)

/-- `TarmacTracerRecord::mergeCCEntry` (header lines 225-259).
`std::remove_if` followed by `erase` removes the CondCode entries while
keeping the others in order; the `it != queue.end()` test means at least
one CondCode entry was present.  If afterwards no CPSR entry is found, a
fresh one is generated via `genRegister` and pushed at the back. -/
def mergeCCEntry (queue : List TraceRegEntry) (tarmCtx : TarmacContext) :
    List TraceRegEntry :=
  if queue.any isCCReg then
    let erased := queue.filter (fun reg => !(isCCReg reg))
    if erased.any is_cpsr then
      erased
    else
      erased ++ [genRegister tarmCtx (RegId.mk RegClass.MiscRegClass MISCREG_CPSR)]
  else
    queue

/-- Instruction entry (`TarmacTracerRecord::TraceInstEntry`): global
sequence number, program counter, secure-mode flag and instruction size
(16 for 16-bit compact encodings, 32 otherwise, header lines 112-117). -/
structure TraceInstEntry where
  seq : Nat
  pc : Nat
  secureMode : Bool
  instSize : Nat
deriving DecidableEq, Repr

/-- Memory entry (`TarmacTracerRecord::TraceMemEntry`): load/store flag,
address, size in bytes and data value. -/
structure TraceMemEntry where
  loadAccess : Bool
  addr : Nat
  size : Nat
  data : Nat
deriving DecidableEq, Repr

/-- One formatted output line of the trace, with the per-entry fields the
spec fixes (section 6): instruction lines carry the sequence number,
program counter, secure-mode marker and size; register lines carry the
name, resolved value and validity marker; memory lines carry the
load/store marker, address, size and data. -/
inductive TarmacLine where
  | instLine : Nat → Nat → Bool → Nat → TarmacLine
  | regLine : String → Nat → Bool → TarmacLine
  | memLine : Bool → Nat → Nat → Nat → TarmacLine
deriving DecidableEq, Repr

/-- Modelled from the spec: `TraceInstEntry::print` is in
`tarmac_record.cc`.  Section 6: one line carrying the instruction entry's
fields. -/
def TraceInstEntry.print (e : TraceInstEntry) : TarmacLine :=
  TarmacLine.instLine e.seq e.pc e.secureMode e.instSize

/-- Modelled from the spec: `TraceRegEntry::print` is in
`tarmac_record.cc`.  Section 6: one line carrying the register name, the
resolved value and the validity marker, so that entries whose validity
flag is still false are flagged as invalid, never presented as
authoritative data. -/
def TraceRegEntry.printReg (e : TraceRegEntry) : TarmacLine :=
  TarmacLine.regLine e.regName e.value e.regValid

/-- Modelled from the spec: `TraceMemEntry::print` is in
`tarmac_record.cc`.  Section 6: one line carrying the access direction,
address, size and data. -/
def TraceMemEntry.print (e : TraceMemEntry) : TarmacLine :=
  TarmacLine.memLine e.loadAccess e.addr e.size e.data

/-- The tracer record (`TarmacTracerRecord`): owns the three entry queues
for one instruction, the execution context, and whether its queues have
already been flushed. -/
structure TarmacTracerRecord where
  instQueue : List TraceInstEntry
  memQueue : List TraceMemEntry
  regQueue : List TraceRegEntry
  tarmCtx : TarmacContext
  flushed : Bool

/-- Modelled from the spec: the single-queue `flushQueues` body is in
`tarmac_record.cc`.  Section 4.4: iterate over the queue, printing each
entry to the output sink in order. -/
def flushQueue {α : Type} (pr : α → TarmacLine) :
    List α → List TarmacLine → List TarmacLine
  | [], outs => outs
  | e :: es, outs => flushQueue pr es (outs ++ [pr e])

/-- Error raised on a state-machine misuse of a record. -/
inductive DumpError where
  | alreadyFlushed
deriving DecidableEq, Repr

/-- Modelled from the spec: the `dump` body is in `tarmac_record.cc`.
Sections 4.4 and 4.5: `dump` merges the condition-code entries of the
register queue via `mergeCCEntry`, then flushes the instruction, memory
and register queues to the sink in that fixed order; afterwards the
record's queues are spent, and invoking `dump` on an already-flushed
record is a fatal usage error, surfaced immediately. -/
def TarmacTracerRecord.dump (rec : TarmacTracerRecord) :
    Except DumpError (List TarmacLine × TarmacTracerRecord) :=
  if rec.flushed then
    Except.error DumpError.alreadyFlushed
  else
    let merged := mergeCCEntry rec.regQueue rec.tarmCtx
    let outs :=
      flushQueue TraceRegEntry.printReg merged
        (flushQueue TraceMemEntry.print rec.memQueue
          (flushQueue TraceInstEntry.print rec.instQueue []))
    Except.ok (outs, { rec with regQueue := merged, flushed := true })

/-- The tracer-session state: the global instruction counter
(`TraceInstEntry::instCount`, header line 108), reimplemented as explicit
state as the spec's design notes direct. -/
structure TracerState where
  instCount : Nat
deriving DecidableEq, Repr

/-- Modelled from the spec: the `TraceInstEntry` constructor and
`addInstEntry` bodies are in `tarmac_record.cc`.  Section 4.1: produce
exactly one instruction entry carrying the next sequence number, the
program counter and the secure-mode flag, with size 16 for the compact
instruction-set mode and 32 otherwise; increment the global instruction
counter as a side effect. -/
def addInstEntry (queue : List TraceInstEntry) (st : TracerState)
    (tarmCtx : TarmacContext) : List TraceInstEntry × TracerState :=
  (queue ++
    [{ seq := st.instCount + 1
       pc := tarmCtx.pc
       secureMode := tarmCtx.secureMode
       instSize := if tarmCtx.compactMode then 16 else 32 }],
   TracerState.mk (st.instCount + 1))

/-- The sequence numbers emitted by a run of consecutive records, one
`addInstEntry` call per record, the counter threaded from each record to
the next (spec section 5). -/
def runInstSeq (st : TracerState) : List TarmacContext → List Nat
  | [] => []
  | c :: cs =>
    match addInstEntry [] st c with
    | (q, st') => q.map TraceInstEntry.seq ++ runInstSeq st' cs

/-! ## Helper lemmas -/

theorem TraceRegEntry.update_regClass (e : TraceRegEntry) (tarmCtx : TarmacContext) :
    (e.update tarmCtx).regClass = e.regClass := by
  unfold TraceRegEntry.update
  cases h : e.regClass <;>
    simp [h, TraceRegEntry.updateMisc, TraceRegEntry.updateCC,
      TraceRegEntry.updateFloat, TraceRegEntry.updateInt,
      TraceRegEntry.updateVec, TraceRegEntry.updatePred]

theorem TraceRegEntry.update_regRel (e : TraceRegEntry) (tarmCtx : TarmacContext) :
    (e.update tarmCtx).regRel = e.regRel := by
  unfold TraceRegEntry.update
  cases h : e.regClass <;>
    simp [TraceRegEntry.updateMisc, TraceRegEntry.updateCC,
      TraceRegEntry.updateFloat, TraceRegEntry.updateInt,
      TraceRegEntry.updateVec, TraceRegEntry.updatePred]

theorem genRegister_regClass (tarmCtx : TarmacContext) (reg : RegId) :
    (genRegister tarmCtx reg).regClass = reg.regClass := by
  simp [genRegister, TraceRegEntry.update_regClass, TraceRegEntry.init]

theorem genRegister_regRel (tarmCtx : TarmacContext) (reg : RegId) :
    (genRegister tarmCtx reg).regRel = reg.index := by
  simp [genRegister, TraceRegEntry.update_regRel, TraceRegEntry.init]

theorem isCCReg_genRegister_cpsr (tarmCtx : TarmacContext) :
    isCCReg (genRegister tarmCtx (RegId.mk RegClass.MiscRegClass MISCREG_CPSR)) = false := by
  simp [isCCReg, genRegister_regClass]

theorem is_cpsr_genRegister_cpsr (tarmCtx : TarmacContext) :
    is_cpsr (genRegister tarmCtx (RegId.mk RegClass.MiscRegClass MISCREG_CPSR)) = true := by
  simp [is_cpsr, genRegister_regClass, genRegister_regRel]

theorem is_cpsr_not_cc (reg : TraceRegEntry) (h : is_cpsr reg = true) :
    isCCReg reg = false := by
  simp only [is_cpsr, Bool.and_eq_true, beq_iff_eq] at h
  simp [isCCReg, h.1]

theorem mergeCCEntry_of_no_cc (queue : List TraceRegEntry) (tarmCtx : TarmacContext)
    (h : queue.any isCCReg = false) : mergeCCEntry queue tarmCtx = queue := by
  simp [mergeCCEntry, h]

theorem mergeCCEntry_spec (queue : List TraceRegEntry) (tarmCtx : TarmacContext) :
    (queue.any isCCReg = false ∧ mergeCCEntry queue tarmCtx = queue) ∨
    (queue.any isCCReg = true ∧
      (queue.filter (fun reg => !(isCCReg reg))).any is_cpsr = true ∧
      mergeCCEntry queue tarmCtx = queue.filter (fun reg => !(isCCReg reg))) ∨
    (queue.any isCCReg = true ∧
      (queue.filter (fun reg => !(isCCReg reg))).any is_cpsr = false ∧
      mergeCCEntry queue tarmCtx = queue.filter (fun reg => !(isCCReg reg)) ++
        [genRegister tarmCtx (RegId.mk RegClass.MiscRegClass MISCREG_CPSR)]) := by
  by_cases hcc : queue.any isCCReg = true
  · by_cases hcp : (queue.filter (fun reg => !(isCCReg reg))).any is_cpsr = true
    · exact Or.inr (Or.inl ⟨hcc, hcp, by simp [mergeCCEntry, hcc, hcp]⟩)
    · simp only [Bool.not_eq_true] at hcp
      exact Or.inr (Or.inr ⟨hcc, hcp, by simp [mergeCCEntry, hcc, hcp]⟩)
  · simp only [Bool.not_eq_true] at hcc
    exact Or.inl ⟨hcc, by simp [mergeCCEntry, hcc]⟩

theorem filter_not_cc_of_no_cc (queue : List TraceRegEntry)
    (h : queue.any isCCReg = false) :
    queue.filter (fun reg => !(isCCReg reg)) = queue := by
  rw [List.filter_eq_self]
  intro a ha
  rw [List.any_eq_false] at h
  simp [h a ha]

theorem mergeCCEntry_cases (queue : List TraceRegEntry) (tarmCtx : TarmacContext) :
    mergeCCEntry queue tarmCtx = queue.filter (fun reg => !(isCCReg reg)) ∨
    mergeCCEntry queue tarmCtx = queue.filter (fun reg => !(isCCReg reg)) ++
      [genRegister tarmCtx (RegId.mk RegClass.MiscRegClass MISCREG_CPSR)] := by
  rcases mergeCCEntry_spec queue tarmCtx with ⟨hcc, hm⟩ | ⟨_, _, hm⟩ | ⟨_, _, hm⟩
  · left
    rw [hm, filter_not_cc_of_no_cc queue hcc]
  · left
    exact hm
  · right
    exact hm

theorem mergeCCEntry_any_cc (queue : List TraceRegEntry) (tarmCtx : TarmacContext) :
    (mergeCCEntry queue tarmCtx).any isCCReg = false := by
  rcases mergeCCEntry_cases queue tarmCtx with h | h <;> rw [h]
  · rw [List.any_eq_false]
    intro x hx
    simp only [List.mem_filter, Bool.not_eq_eq_eq_not, Bool.not_true] at hx
    simp [hx.2]
  · rw [List.any_append]
    simp only [Bool.or_eq_false_iff]
    constructor
    · rw [List.any_eq_false]
      intro x hx
      simp only [List.mem_filter, Bool.not_eq_eq_eq_not, Bool.not_true] at hx
      simp [hx.2]
    · simp [isCCReg_genRegister_cpsr]

theorem flushQueue_eq {α : Type} (pr : α → TarmacLine) (q : List α)
    (outs : List TarmacLine) : flushQueue pr q outs = outs ++ q.map pr := by
  induction q generalizing outs with
  | nil => simp [flushQueue]
  | cons e es ih => simp [flushQueue, ih]

theorem countP_cc_filter (queue : List TraceRegEntry) :
    (queue.filter (fun reg => !(isCCReg reg))).countP isCCReg = 0 := by
  rw [List.countP_eq_zero]
  intro a ha
  simp only [List.mem_filter, Bool.not_eq_eq_eq_not, Bool.not_true] at ha
  simp [ha.2]

/-! ## Concrete fixtures used by witnesses and counterexamples -/

/-- A concrete execution context. -/
def ctx0 : TarmacContext :=
  { miscRegValue := fun _ => 0
    ccRegValue := fun _ => 0
    floatRegValue := fun _ => 0
    intRegValue := fun _ => 0
    pc := 0
    secureMode := false
    compactMode := false }

/-- A concrete Misc-class entry for the CPSR status register. -/
def cpsrEnt : TraceRegEntry :=
  { regValid := true, regClass := RegClass.MiscRegClass, regRel := MISCREG_CPSR,
    regName := "cpsr", value := 16 }

/-- A concrete CondCode-class entry. -/
def ccEnt : TraceRegEntry :=
  { regValid := true, regClass := RegClass.CCRegClass, regRel := 0,
    regName := "nz", value := 1 }

/-- A concrete Integer-class entry. -/
def intEnt : TraceRegEntry :=
  { regValid := true, regClass := RegClass.IntRegClass, regRel := 1,
    regName := "r1", value := 5 }

/-! ## Claims -/

/-- Claim C1, counterexample: on a queue holding two CPSR entries and a
CondCode entry, the merged queue keeps both CPSR entries, so the claimed
"at most one Misc-class CPSR entry" conjunct fails as stated for arbitrary
queues. -/
theorem mergeCC_canonical_cex :
    ¬ (((mergeCCEntry [cpsrEnt, cpsrEnt, ccEnt] ctx0).countP isCCReg = 0) ∧
       ((mergeCCEntry [cpsrEnt, cpsrEnt, ccEnt] ctx0).countP is_cpsr ≤ 1) ∧
       (([cpsrEnt, cpsrEnt, ccEnt].any isCCReg = true) →
         (mergeCCEntry [cpsrEnt, cpsrEnt, ccEnt] ctx0).any is_cpsr = true)) := by
  decide

/-- Claim C1 (amended): for every queue holding at most one CPSR entry,
after `mergeCCEntry` the queue contains zero CondCode entries and at most
one Misc-class CPSR entry, and a CPSR entry is present whenever the queue
held at least one CondCode entry before merging. -/
theorem mergeCC_canonical (tarmCtx : TarmacContext) (queue : List TraceRegEntry)
    (h : queue.countP is_cpsr ≤ 1) :
    ((mergeCCEntry queue tarmCtx).countP isCCReg = 0) ∧
    ((mergeCCEntry queue tarmCtx).countP is_cpsr ≤ 1) ∧
    ((queue.any isCCReg = true) → (mergeCCEntry queue tarmCtx).any is_cpsr = true) := by
  refine ⟨List.countP_eq_zero.mpr (List.any_eq_false.mp (mergeCCEntry_any_cc queue tarmCtx)),
    ?_, ?_⟩
  · rcases mergeCCEntry_spec queue tarmCtx with ⟨_, hm⟩ | ⟨_, _, hm⟩ | ⟨_, hcp, hm⟩ <;>
      rw [hm]
    · exact h
    · calc (queue.filter (fun reg => !(isCCReg reg))).countP is_cpsr
          = queue.countP (fun a => is_cpsr a && !(isCCReg a)) :=
            List.countP_filter _ _ _
        _ ≤ queue.countP is_cpsr := by
            refine List.countP_mono_left ?_
            intro a _ hpa
            simp only [Bool.and_eq_true] at hpa
            exact hpa.1
        _ ≤ 1 := h
    · rw [List.countP_append]
      rw [List.countP_eq_zero.mpr (List.any_eq_false.mp hcp)]
      simp [is_cpsr_genRegister_cpsr]
  · intro hcc
    rcases mergeCCEntry_spec queue tarmCtx with ⟨h0, _⟩ | ⟨_, hcp, hm⟩ | ⟨_, _, hm⟩
    · simp [h0] at hcc
    · rw [hm]
      exact hcp
    · rw [hm, List.any_append]
      simp [is_cpsr_genRegister_cpsr]

/-- Claim C1 witness: the amended theorem applied to a queue holding one
Integer entry and one CondCode entry. -/
theorem mergeCC_canonical_wit :
    ([intEnt, ccEnt].countP is_cpsr ≤ 1) ∧
    (((mergeCCEntry [intEnt, ccEnt] ctx0).countP isCCReg = 0) ∧
     ((mergeCCEntry [intEnt, ccEnt] ctx0).countP is_cpsr ≤ 1) ∧
     (([intEnt, ccEnt].any isCCReg = true) →
       (mergeCCEntry [intEnt, ccEnt] ctx0).any is_cpsr = true)) :=
  ⟨by decide, mergeCC_canonical ctx0 [intEnt, ccEnt] (by decide)⟩

/-- Claim C2: `mergeCCEntry` either returns the non-CondCode entries of
the queue in their original (builder insertion) order, or returns them in
order with one synthesized CPSR entry appended at the very end. -/
theorem mergeCC_order (queue : List TraceRegEntry) (tarmCtx : TarmacContext) :
    mergeCCEntry queue tarmCtx = queue.filter (fun reg => !(isCCReg reg)) ∨
    mergeCCEntry queue tarmCtx = queue.filter (fun reg => !(isCCReg reg)) ++
      [genRegister tarmCtx (RegId.mk RegClass.MiscRegClass MISCREG_CPSR)] :=
  mergeCCEntry_cases queue tarmCtx

/-- Claim C3, counterexample: a queue holding one CondCode entry and two
CPSR entries satisfies the claim's hypotheses (at least one CondCode
entry, a CPSR entry present), yet the merged queue holds two CPSR entries,
not exactly one. -/
theorem mergeCC_existing_cpsr_cex :
    (([ccEnt, cpsrEnt, cpsrEnt].any isCCReg = true) ∧
     ([ccEnt, cpsrEnt, cpsrEnt].any is_cpsr = true)) ∧
    ¬ ((mergeCCEntry [ccEnt, cpsrEnt, cpsrEnt] ctx0).countP is_cpsr = 1) := by
  decide

/-- Claim C3 (amended): for every queue holding at least one CondCode
entry and exactly one CPSR entry, `mergeCCEntry` returns exactly the
non-CondCode entries, synthesizes nothing, and the result holds exactly
one CPSR entry and zero CondCode entries. -/
theorem mergeCC_existing_cpsr (queue : List TraceRegEntry) (tarmCtx : TarmacContext)
    (hcc : queue.any isCCReg = true) (h1 : queue.countP is_cpsr = 1) :
    mergeCCEntry queue tarmCtx = queue.filter (fun reg => !(isCCReg reg)) ∧
    (mergeCCEntry queue tarmCtx).countP is_cpsr = 1 ∧
    (mergeCCEntry queue tarmCtx).countP isCCReg = 0 := by
  have hfilter : (queue.filter (fun reg => !(isCCReg reg))).countP is_cpsr = 1 := by
    rw [List.countP_filter]
    rw [List.countP_congr ?_]
    · exact h1
    · intro a _
      constructor
      · intro hpa
        simp only [Bool.and_eq_true] at hpa
        exact hpa.1
      · intro hpa
        simp [hpa, is_cpsr_not_cc a hpa]
  have hany : (queue.filter (fun reg => !(isCCReg reg))).any is_cpsr = true := by
    have hpos : 0 < (queue.filter (fun reg => !(isCCReg reg))).countP is_cpsr := by
      rw [hfilter]
      norm_num
    rcases List.countP_pos_iff.mp hpos with ⟨a, ha, hpa⟩
    exact List.any_eq_true.mpr ⟨a, ha, hpa⟩
  have hm : mergeCCEntry queue tarmCtx = queue.filter (fun reg => !(isCCReg reg)) := by
    simp [mergeCCEntry, hcc, hany]
  refine ⟨hm, ?_, ?_⟩
  · rw [hm]
    exact hfilter
  · rw [hm]
    exact countP_cc_filter queue

/-- Claim C3 witness: the amended theorem applied to a queue holding one
CondCode entry, one Integer entry and one CPSR entry. -/
theorem mergeCC_existing_cpsr_wit :
    (([ccEnt, intEnt, cpsrEnt].any isCCReg = true) ∧
     ([ccEnt, intEnt, cpsrEnt].countP is_cpsr = 1)) ∧
    (mergeCCEntry [ccEnt, intEnt, cpsrEnt] ctx0 =
       [ccEnt, intEnt, cpsrEnt].filter (fun reg => !(isCCReg reg)) ∧
     (mergeCCEntry [ccEnt, intEnt, cpsrEnt] ctx0).countP is_cpsr = 1 ∧
     (mergeCCEntry [ccEnt, intEnt, cpsrEnt] ctx0).countP isCCReg = 0) :=
  ⟨⟨by decide, by decide⟩,
   mergeCC_existing_cpsr [ccEnt, intEnt, cpsrEnt] ctx0 (by decide) (by decide)⟩

/-- Claim C4: on a queue with no CondCode entries, `mergeCCEntry` leaves
the queue completely unchanged. -/
theorem mergeCC_no_cc_frame (queue : List TraceRegEntry) (tarmCtx : TarmacContext)
    (h : queue.any isCCReg = false) : mergeCCEntry queue tarmCtx = queue :=
  mergeCCEntry_of_no_cc queue tarmCtx h

/-- Claim C4 witness: the theorem applied to a queue holding one Integer
entry and one CPSR entry. -/
theorem mergeCC_no_cc_frame_wit :
    ([intEnt, cpsrEnt].any isCCReg = false) ∧
    mergeCCEntry [intEnt, cpsrEnt] ctx0 = [intEnt, cpsrEnt] :=
  ⟨by decide, mergeCC_no_cc_frame [intEnt, cpsrEnt] ctx0 (by decide)⟩

/-- Claim C10: `mergeCCEntry` is idempotent — its result never holds a
CondCode entry, so a second application does nothing. -/
theorem mergeCC_idempotent (queue : List TraceRegEntry) (tarmCtx : TarmacContext) :
    mergeCCEntry (mergeCCEntry queue tarmCtx) tarmCtx = mergeCCEntry queue tarmCtx :=
  mergeCCEntry_of_no_cc _ _ (mergeCCEntry_any_cc queue tarmCtx)

/-- A concrete record with one entry in each queue. -/
def rec0 : TarmacTracerRecord :=
  { instQueue := [{ seq := 1, pc := 4, secureMode := false, instSize := 32 }]
    memQueue := [{ loadAccess := true, addr := 4096, size := 4, data := 7 }]
    regQueue := [intEnt]
    tarmCtx := ctx0
    flushed := false }

/-- A concrete record with empty queues, not yet flushed. -/
def rec1 : TarmacTracerRecord :=
  { instQueue := [], memQueue := [], regQueue := [], tarmCtx := ctx0, flushed := false }

/-- The record `rec1` after its queues have been flushed. -/
def rec1f : TarmacTracerRecord :=
  { instQueue := [], memQueue := [], regQueue := [], tarmCtx := ctx0, flushed := true }

/-- A concrete unresolved Vector-class entry. -/
def invEnt : TraceRegEntry :=
  { regValid := false, regClass := RegClass.VecRegClass, regRel := 2,
    regName := "v2", value := 0 }

/-- A concrete unresolved Vector-class entry for the update no-op. -/
def vecEnt : TraceRegEntry :=
  { regValid := false, regClass := RegClass.VecRegClass, regRel := 3,
    regName := "z3", value := 0 }

/-- Claim C5: on a record not yet flushed, `dump` emits one formatted
line per entry via that entry's print function, instruction entries
first, then all memory entries, then all register entries (the register
queue as canonicalized by `mergeCCEntry`). -/
theorem dump_order (rec : TarmacTracerRecord) (h : rec.flushed = false) :
    rec.dump = Except.ok
      (rec.instQueue.map TraceInstEntry.print ++
       rec.memQueue.map TraceMemEntry.print ++
       (mergeCCEntry rec.regQueue rec.tarmCtx).map TraceRegEntry.printReg,
       { rec with regQueue := mergeCCEntry rec.regQueue rec.tarmCtx, flushed := true }) := by
  simp [TarmacTracerRecord.dump, h, flushQueue_eq]

/-- Claim C5 witness: the theorem applied to a record holding one
instruction entry, one memory entry and one register entry. -/
theorem dump_order_wit :
    (rec0.flushed = false) ∧
    rec0.dump = Except.ok
      (rec0.instQueue.map TraceInstEntry.print ++
       rec0.memQueue.map TraceMemEntry.print ++
       (mergeCCEntry rec0.regQueue rec0.tarmCtx).map TraceRegEntry.printReg,
       { rec0 with regQueue := mergeCCEntry rec0.regQueue rec0.tarmCtx, flushed := true }) :=
  ⟨rfl, dump_order rec0 rfl⟩

/-- Claim C6: a register entry's validity flag is false at construction,
and an entry whose validity flag is still false is never printed as a
line whose validity marker claims it valid — it is flagged as invalid. -/
theorem regEntry_validity :
    (∀ (tarmCtx : TarmacContext) (reg : RegId),
      (TraceRegEntry.init tarmCtx reg).regValid = false) ∧
    (∀ (e : TraceRegEntry), e.regValid = false →
      ∀ (nm : String) (v : Nat), e.printReg ≠ TarmacLine.regLine nm v true) := by
  constructor
  · intro tarmCtx reg
    rfl
  · intro e he nm v hcontra
    simp [TraceRegEntry.printReg, he] at hcontra

/-- Claim C6 witness: the theorem applied to a freshly constructed entry
and to a concrete unresolved entry. -/
theorem regEntry_validity_wit :
    ((TraceRegEntry.init ctx0 (RegId.mk RegClass.IntRegClass 0)).regValid = false) ∧
    (invEnt.regValid = false) ∧
    invEnt.printReg ≠ TarmacLine.regLine "v2" 0 true :=
  ⟨regEntry_validity.1 ctx0 (RegId.mk RegClass.IntRegClass 0), rfl,
   regEntry_validity.2 invEnt rfl "v2" 0⟩

/-- Claim C7: on entries of class Vector or Predicate the update
(resolution) step is a complete no-op, so an unresolved entry's validity
flag stays false. -/
theorem updateVecPred_noop (tarmCtx : TarmacContext) (e : TraceRegEntry)
    (h : e.regClass = RegClass.VecRegClass ∨ e.regClass = RegClass.VecPredRegClass) :
    e.update tarmCtx = e ∧
    (e.regValid = false → (e.update tarmCtx).regValid = false) := by
  have hu : e.update tarmCtx = e := by
    rcases h with h | h <;>
      simp [TraceRegEntry.update, h, TraceRegEntry.updateVec, TraceRegEntry.updatePred]
  exact ⟨hu, fun hv => by rw [hu]; exact hv⟩

/-- Claim C7 witness: the theorem applied to a concrete unresolved
Vector-class entry. -/
theorem updateVecPred_noop_wit :
    (vecEnt.regClass = RegClass.VecRegClass ∨
     vecEnt.regClass = RegClass.VecPredRegClass) ∧
    (vecEnt.update ctx0 = vecEnt ∧
     (vecEnt.regValid = false → (vecEnt.update ctx0).regValid = false)) :=
  ⟨Or.inl rfl, updateVecPred_noop ctx0 vecEnt (Or.inl rfl)⟩

/-- Claim C8: each `addInstEntry` call produces exactly one instruction
entry and increments the instruction counter exactly once, and across a
run of consecutive records the emitted sequence numbers are consecutive,
strictly increasing by 1. -/
theorem addInstEntry_counter :
    (∀ (queue : List TraceInstEntry) (st : TracerState) (tarmCtx : TarmacContext),
      (addInstEntry queue st tarmCtx).1.length = queue.length + 1 ∧
      (addInstEntry queue st tarmCtx).2.instCount = st.instCount + 1) ∧
    (∀ (st : TracerState) (ctxs : List TarmacContext),
      runInstSeq st ctxs = List.range' (st.instCount + 1) ctxs.length) := by
  constructor
  · intro queue st tarmCtx
    constructor
    · simp [addInstEntry]
    · rfl
  · intro st ctxs
    induction ctxs generalizing st with
    | nil => rfl
    | cons c cs ih =>
      simp only [runInstSeq, addInstEntry, List.nil_append, List.map_cons,
        List.map_nil, List.length_cons]
      rw [ih (TracerState.mk (st.instCount + 1))]
      rfl

/-- Claim C9: invoking `dump` on a record whose first `dump` completed
returns the fatal `alreadyFlushed` error — neither a silent no-op nor a
repetition of the record's output. -/
theorem dump_twice_fatal (rec : TarmacTracerRecord) (lines : List TarmacLine)
    (rec' : TarmacTracerRecord) (h : rec.dump = Except.ok (lines, rec')) :
    rec'.dump = Except.error DumpError.alreadyFlushed := by
  have h2 : rec'.flushed = true := by
    by_cases hf : rec.flushed
    · simp [TarmacTracerRecord.dump, hf] at h
    · simp only [Bool.not_eq_true] at hf
      simp only [TarmacTracerRecord.dump, hf, Bool.false_eq_true, if_false,
        Except.ok.injEq, Prod.mk.injEq] at h
      rw [← h.2]
  simp [TarmacTracerRecord.dump, h2]

/-- Claim C9 witness: the theorem applied to a concrete record whose
first `dump` succeeded. -/
theorem dump_twice_fatal_wit :
    (rec1.dump = Except.ok ([], rec1f)) ∧
    rec1f.dump = Except.error DumpError.alreadyFlushed :=
  ⟨rfl, dump_twice_fatal rec1 [] rec1f rfl⟩
